import Mathlib

/-!
Verification development for the ReclutamientoLegislativoMx data pipeline.

The repository contains four near-duplicate ETL scripts that unpivot per-member
career-history event rows (Sheet3: `dip_id`, `tipo`, `descripcion`, `detalle`,
`periodo`) into a wide table.  We embed the relevant functions:

* `lxi_script.py` — `safe_get_value`, `TIPO_ACTIVIDAD_MAPPING` /
  `process_sheet3`'s `replace_strict` step, `process_deputy_profile`,
  `merge_dataframes` (no row sort);
* `lxi_dataprocessing_polars.py` — the per-category unpivoters
  (`process_actividad_empresarial`, `process_actividad_docente`,
  `process_escolaridad`, `process_experiencia_legislativa_previa`,
  `process_experiencia_apf`), `natural_sort_key`, `merge_dataframes`
  (sorts by `dip_id`);
* `process_lxi_data.py` — `pd.DataFrame.from_dict` table assembly
  (union of keys, missing keys become null).

A dataframe is a column list plus rows; a row is an association list from
column name to an optional cell (``none`` models a null cell).  A Python dict
accumulated by the profile builders is modelled as an association list in
insertion order (the builders never write the same key twice, so lookup
semantics agree with dict semantics).
-/

/-- A cell is either null (`none`) or a string value. -/
abbrev Cell := Option String

/-- One dataframe row: association list from column name to cell. -/
abbrev Row := List (String × Cell)

/-- A dataframe: schema (column names) plus rows. -/
structure DataFrame where
  cols : List String
  rows : List Row
deriving DecidableEq, Repr

/-- Value of column `c` in row `r` (`none` when the cell is null or absent). -/
def rowGet (r : Row) (c : String) : Option String :=
  (List.lookup c r).join

/-- `df.filter(pl.col(col) == v)`: rows whose `col` cell equals `v`
(null cells never match). -/
def filterCol (d : DataFrame) (col v : String) : DataFrame :=
  ⟨d.cols, d.rows.filter (fun r => rowGet r col == some v)⟩

/-- Values stored in a profile dict: the presence flags are Python ints,
the detail fields are strings. -/
inductive Value where
  | int (n : Int)
  | str (s : String)
deriving DecidableEq, Repr

/-- `safe_get_value` from `lxi_script.py` (also
`multiarchivo_procesamiento_congreso.py`): returns `default` when the column
is missing from the schema, the row index is out of bounds, or the cell is
null; otherwise the cell's string. -/
def safe_get_value (d : DataFrame) (column : String) (idx : Nat)
    (default : String := "") : String :=
  if column ∈ d.cols then
    match d.rows.get? idx with
    | some r => (rowGet r column).getD default
    | none => default
  else default

/-- `safe_get_value` from `lxi_dataprocessing_polars.py`: no column check,
`df[column][idx] if df[column][idx] is not None else ""`.  The loops that call
it always index in bounds with existing columns. -/
def safe_get_value_pl (d : DataFrame) (column : String) (idx : Nat) : String :=
  match d.rows.get? idx with
  | some r => (rowGet r column).getD ""
  | none => ""

/-- One numbered detail-field group per partition row, as emitted by the
`for idx in range(len(part)): profile[f"name_{idx + 1}"] = safe_get_value(...)`
loops of `process_deputy_profile` (`lxi_script.py`).  Each group carries its
1-based numeric suffix together with the named fields it emits; `fields` pairs
a column-name template with the source column read by `safe_get_value`. -/
def detailGroups (fields : List (String × String)) (part : DataFrame) :
    List (Nat × List (String × Value)) :=
  (List.range part.rows.length).map (fun idx =>
    (idx + 1,
     fields.map (fun f =>
       (f.1 ++ Nat.repr (idx + 1), Value.str (safe_get_value part f.2 idx)))))

/-- The detail entries in profile insertion order (groups flattened). -/
def detailFlat (fields : List (String × String)) (part : DataFrame) :
    List (String × Value) :=
  (detailGroups fields part).flatMap (fun g => g.2)

/-- One category section of `process_deputy_profile` (`lxi_script.py`):
filter on `tipo_actividad_std == tipoKey`, set the presence flag
`1 if len(part) > 0 else 0`, then run the per-record detail loop. -/
def catSection (flagName tipoKey : String) (fields : List (String × String))
    (d : DataFrame) : List (String × Value) :=
  let part := filterCol d "tipo_actividad_std" tipoKey
  (flagName, Value.int (if 0 < part.rows.length then 1 else 0)) ::
    detailFlat fields part

/-- `process_cargo_eleccion_popular` from `lxi_script.py`. -/
def process_cargo_eleccion_popular (d : DataFrame) : List (String × Value) :=
  catSection "cargo_eleccion_popular" "cargos_electos_previos"
    [("cargo_eleccion_popular_", "descripcion"),
     ("cargo_eleccion_popular_partido_", "detalle"),
     ("cargo_eleccion_popular_periodo_", "periodo")] d

/-- `process_deputy_profile` from `lxi_script.py`: the thirteen category
sections in source order, each a presence flag followed by the numbered
detail fields of that member's partition. -/
def process_deputy_profile (dipId : Int) (d : DataFrame) :
    List (String × Value) :=
  ("dip_id", Value.int dipId) ::
  (catSection "escolaridad" "escolaridad"
      [("escolaridad_", "descripcion"),
       ("escolaridad_institucion_", "detalle")] d ++
   (catSection "exp_politica" "exp_politica"
      [("exp_politica_", "descripcion"),
       ("exp_politica_periodo_", "periodo")] d ++
    (catSection "exp_laboral_privada" "exp_laboral_privada"
      [("exp_laboral_privada_", "descripcion")] d ++
     (catSection "exp_leg_previa" "exp_leg_previa"
      [("exp_leg_previa_", "descripcion"),
       ("exp_leg_previa_periodo_", "periodo")] d ++
      (catSection "exp_apf" "exp_apf"
      [("exp_apf_", "descripcion"),
       ("exp_apf_periodo_", "periodo")] d ++
       (catSection "exp_aplocal" "exp_aplocal"
      [("exp_aplocal_", "descripcion"),
       ("exp_aplocal_periodo_", "periodo")] d ++
        (catSection "cargos_legislativos_previa" "cargos_legislativos_previa"
      [("cargo_legislativo_", "descripcion"),
       ("cargo_legislativo_periodo_", "periodo")] d ++
         (process_cargo_eleccion_popular d ++
          (catSection "exp_asociaciones" "exp_asociaciones"
      [("asociacion_", "descripcion")] d ++
           (catSection "exp_docente" "exp_docente"
      [("exp_docente_", "descripcion"),
       ("exp_docente_institucion_", "detalle")] d ++
            (catSection "publicaciones" "publicaciones"
      [("publicacion_", "descripcion")] d ++
             (catSection "exp_empresarial" "exp_empresarial"
      [("exp_empresarial_", "descripcion")] d ++
              catSection "logros_deportivos" "logros_deportivos"
      [("logro_deportivo_", "descripcion")] d))))))))))))

/-- The thirteen presence-flag keys written by `process_deputy_profile`
(`lxi_script.py`), one per canonical category of the activity registry. -/
def flagNames : List String :=
  ["escolaridad", "exp_politica", "exp_laboral_privada", "exp_leg_previa",
   "exp_apf", "exp_aplocal", "cargos_legislativos_previa",
   "cargo_eleccion_popular", "exp_asociaciones", "exp_docente",
   "publicaciones", "exp_empresarial", "logros_deportivos"]

/-- `TIPO_ACTIVIDAD_MAPPING` from `lxi_script.py` (lines 127–146). -/
def TIPO_ACTIVIDAD_MAPPING : List (String × String) :=
  [("ESCOLARIDAD", "escolaridad"),
   ("TRAYECTORIA POLITICA", "exp_politica"),
   ("TRAYECTORIA POLÍTICA", "exp_politica"),
   ("INICIATIVA PRIVADA", "exp_laboral_privada"),
   ("EXPERIENCIA LEGISLATIVA", "exp_leg_previa"),
   ("ADMINISTRACION PUBLICA FEDERAL", "exp_apf"),
   ("ADMINISTRACIÓN PÚBLICA FEDERAL", "exp_apf"),
   ("ADMINISTRACION PUBLICA LOCAL", "exp_aplocal"),
   ("ADMINISTRACIÓN PÚBLICA LOCAL", "exp_aplocal"),
   ("CARGOS EN LEGISLATURAS LOCALES O FEDERALES", "cargos_legislativos_previa"),
   ("CARGOS DE ELECCION POPULAR", "cargos_electos_previos"),
   ("CARGOS DE ELECCIÓN POPULAR", "cargos_electos_previos"),
   ("ASOCIACIONES A LAS QUE PERTENECE", "exp_asociaciones"),
   ("ACTIVIDADES DOCENTES", "exp_docente"),
   ("PUBLICACIONES", "publicaciones"),
   ("Actividad Empresarial", "exp_empresarial"),
   ("LOGROS DEPORTIVOS MAS DESTACADOS", "logros_deportivos"),
   ("LOGROS DEPORTIVOS MÁS DESTACADOS", "logros_deportivos")]

/-- Category canonicalization, as performed by `process_sheet3`
(`lxi_script.py` lines 412–416):
`pl.col("tipo").replace_strict(TIPO_ACTIVIDAD_MAPPING, default=pl.col("tipo"))`
— exact-match lookup, original label on a miss. -/
def canonicalize (label : String) : String :=
  (TIPO_ACTIVIDAD_MAPPING.lookup label).getD label

/-- The `with_columns` step of `process_sheet3` (`lxi_script.py`): append the
`tipo_actividad_std` column holding the canonicalized label (nulls stay null);
every input row survives. -/
def addTipoStd (d : DataFrame) : DataFrame :=
  ⟨d.cols ++ ["tipo_actividad_std"],
   d.rows.map (fun r =>
     r ++ [("tipo_actividad_std", (rowGet r "tipo").map canonicalize)])⟩

/-- `process_actividad_empresarial` from `lxi_dataprocessing_polars.py`
(lines 283–296): for each record of the member's `exp_empresarial` partition,
emit `actividad_empresarial_{i} = f"{detalle},{descripcion},{periodo}"`, with
null fields read as `""` by `safe_get_value`.  No presence flag is emitted. -/
def process_actividad_empresarial (d : DataFrame) : List (String × Value) :=
  let part := filterCol d "tipo" "exp_empresarial"
  (List.range part.rows.length).map (fun idx =>
    ("actividad_empresarial_" ++ Nat.repr (idx + 1),
     Value.str (safe_get_value_pl part "detalle" idx ++ "," ++
                safe_get_value_pl part "descripcion" idx ++ "," ++
                safe_get_value_pl part "periodo" idx)))

/-- `process_actividad_docente` from `lxi_dataprocessing_polars.py`
(lines 299–307): the flag is 1 only when the `exp_docente` partition is
non-empty, the `actividad` column exists, and some record's `actividad` cell
equals `"Docente"` (polars `(series == "Docente").any()` ignores nulls). -/
def process_actividad_docente (d : DataFrame) : List (String × Value) :=
  let part := filterCol d "tipo" "exp_docente"
  let hasDocente : Bool :=
    if 0 < part.rows.length ∧ "actividad" ∈ d.cols then
      part.rows.any (fun r => rowGet r "actividad" == some "Docente")
    else false
  [("actividad_docente",
    Value.int (if 0 < part.rows.length ∧ hasDocente = true then 1 else 0))]

/-- `process_escolaridad` from `lxi_dataprocessing_polars.py` (lines 397–419):
three independent numbered projections per record, no presence flag. -/
def process_escolaridad (d : DataFrame) : List (String × Value) :=
  let part := filterCol d "tipo" "escolaridad"
  (List.range part.rows.length).flatMap (fun idx =>
    [("escolaridad_tipo_" ++ Nat.repr (idx + 1),
      Value.str (safe_get_value_pl part "descripcion" idx)),
     ("escolaridad_detalle_" ++ Nat.repr (idx + 1),
      Value.str (safe_get_value_pl part "detalle" idx)),
     ("escolaridad_periodo_" ++ Nat.repr (idx + 1),
      Value.str (safe_get_value_pl part "periodo" idx))])

/-- `process_experiencia_legislativa_previa` from
`lxi_dataprocessing_polars.py` (lines 422–444): three independent numbered
projections per record of the `exp_leg_previa` partition, no presence flag. -/
def process_experiencia_legislativa_previa (d : DataFrame) :
    List (String × Value) :=
  let part := filterCol d "tipo" "exp_leg_previa"
  (List.range part.rows.length).flatMap (fun idx =>
    [("exp_leg_previa_" ++ Nat.repr (idx + 1),
      Value.str (safe_get_value_pl part "descripcion" idx)),
     ("exp_leg_previa_legislatura_" ++ Nat.repr (idx + 1),
      Value.str (safe_get_value_pl part "detalle" idx)),
     ("exp_leg_previa_yr_" ++ Nat.repr (idx + 1),
      Value.str (safe_get_value_pl part "periodo" idx))])

/-- `process_experiencia_apf` from `lxi_dataprocessing_polars.py`
(lines 310–320): presence flag `experiencia_apf` followed by one concatenated
`detalle_exp_apf_{i}` field per record. -/
def process_experiencia_apf (d : DataFrame) : List (String × Value) :=
  let part := filterCol d "tipo" "exp_apf"
  ("experiencia_apf", Value.int (if 0 < part.rows.length then 1 else 0)) ::
  (List.range part.rows.length).map (fun idx =>
    ("detalle_exp_apf_" ++ Nat.repr (idx + 1),
     Value.str (safe_get_value_pl part "descripcion" idx ++ "," ++
                safe_get_value_pl part "detalle" idx)))

/-- One part of a natural-sort key: Python's `re.split(r"(\d+)", name)`
produces interleaved string pieces and captured digit runs; digit runs are
converted with `int(...)`, other pieces stay strings. -/
abbrev SortPart := Sum String Nat

/-- Folding step building the `re.split(r"(\d+)", s)` piece list from the
right.  The accumulator always alternates non-digit piece, digit run,
non-digit piece, …, beginning and ending with a (possibly empty) non-digit
piece, exactly as `re.split` with one capturing group does. -/
def natSplitStep (c : Char) (parts : List (List Char)) : List (List Char) :=
  match parts with
  | [] => [[c]]
  | p :: ps =>
    if c.isDigit then
      match p, ps with
      | [], d :: ps2 => [] :: (c :: d) :: ps2
      | _, _ => [] :: [c] :: p :: ps
    else (c :: p) :: ps

/-- The piece list of `re.split(r"(\d+)", s)`. -/
def natSplit (s : String) : List (List Char) :=
  s.data.foldr natSplitStep [[]]

/-- Python `int(...)` on a digit run. -/
def digitsToNat (cs : List Char) : Nat :=
  cs.foldl (fun acc c => acc * 10 + (c.toNat - '0'.toNat)) 0

/-- `natural_sort_key` from `process_lxi_data.py` (lines 281–284) and
`lxi_dataprocessing_polars.py` (lines 560–563):
`[int(part) if part.isdigit() else part for part in re.split(r"(\d+)", s)]`. -/
def natural_sort_key (s : String) : List SortPart :=
  (natSplit s).map (fun p =>
    if p ≠ [] ∧ p.all Char.isDigit then Sum.inr (digitsToNat p)
    else Sum.inl (String.mk p))

/-- Code-point comparison of character lists (Python string comparison). -/
def charsCmp : List Char → List Char → Ordering
  | [], [] => .eq
  | [], _ :: _ => .lt
  | _ :: _, [] => .gt
  | a :: as, b :: bs =>
    if a.toNat < b.toNat then .lt
    else if b.toNat < a.toNat then .gt
    else charsCmp as bs

/-- Comparison of key parts.  Python compares ints with ints and strings with
strings; a mixed comparison raises `TypeError` and never occurs between keys
of the column names being sorted, so its result here is arbitrary. -/
def sortPartCmp : SortPart → SortPart → Ordering
  | .inl a, .inl b => charsCmp a.data b.data
  | .inr a, .inr b => compare a b
  | .inl _, .inr _ => .lt
  | .inr _, .inl _ => .gt

/-- Lexicographic comparison of whole keys (Python list comparison). -/
def sortKeyCmp : List SortPart → List SortPart → Ordering
  | [], [] => .eq
  | [], _ :: _ => .lt
  | _ :: _, [] => .gt
  | a :: as, b :: bs =>
    match sortPartCmp a b with
    | .eq => sortKeyCmp as bs
    | o => o

/-- `a` may precede `b` under the natural-sort key. -/
def naturalLe (a b : String) : Bool :=
  match sortKeyCmp (natural_sort_key a) (natural_sort_key b) with
  | .gt => false
  | _ => true

/-- Stable insertion into an already sorted list: the new element goes after
every element it does not strictly precede, matching Python's stable sort. -/
def insertNat (x : String) : List String → List String
  | [] => [x]
  | y :: ys => if naturalLe y x then y :: insertNat x ys else x :: y :: ys

/-- `column_groups[key].sort(key=natural_sort_key)`: stable sort of a column
group by the natural-sort key. -/
def sortNaturally (cols : List String) : List String :=
  cols.foldl (fun acc x => insertNat x acc) []

/-- Row-order model of a polars left join on `dip_id`, with each dataframe
abstracted to its `dip_id` column: every left row is kept in place, expanded
once per matching right row (left row order is preserved). -/
def leftJoinIds (left right : List Int) : List Int :=
  left.flatMap (fun i =>
    if right.count i = 0 then [i] else List.replicate (right.count i) i)

/-- `merge_dataframes` from `lxi_script.py` (lines 432–458, identical in
`multiarchivo_procesamiento_congreso.py`): left-join Sheet2 and Sheet3 onto
Sheet1 when non-empty; no row sort is applied, so the output keeps Sheet1's
row order. -/
def merge_dataframes_script (ids1 ids2 ids3 : List Int) : List Int :=
  let a := if ids2.isEmpty then ids1 else leftJoinIds ids1 ids2
  if ids3.isEmpty then a else leftJoinIds a ids3

/-- `merge_dataframes` from `lxi_dataprocessing_polars.py` (lines 528–542):
the same joins followed by `df_final.sort("dip_id")` (`process_lxi_data.py`
likewise ends with `df_final.sort_values("dip_id")`). -/
def merge_dataframes_sorted (ids1 ids2 ids3 : List Int) : List Int :=
  List.insertionSort (· ≤ ·) (merge_dataframes_script ids1 ids2 ids3)

/-- Column set of `pd.DataFrame.from_dict(..., orient="index")`
(`process_lxi_data.py` line 164): union of the records' keys in order of
first appearance. -/
def unionKeys (records : List (List (String × Value))) : List String :=
  records.foldl
    (fun acc r =>
      acc ++ ((r.map Prod.fst).filter (fun k => ¬ acc.contains k))) []

/-- The cell of one member's row at column `c`: the record's value when the
key is present, null (`none`) when the member's record lacks the key. -/
def tableCell (record : List (String × Value)) (c : String) : Option Value :=
  record.lookup c

/-- Rows all of whose cells belong to the dataframe schema (polars invariant:
every row has exactly the schema's columns). -/
def WF (d : DataFrame) : Prop :=
  ∀ r ∈ d.rows, ∀ kv ∈ r, kv.1 ∈ d.cols

/-- Discriminates detail values (`str`) from presence flags (`int`). -/
def isStrVal : Value → Bool
  | .str _ => true
  | .int _ => false

/-- Member with one `exp_empresarial` event
`{detalle: "A", descripcion: "", periodo: "2010"}`. -/
def dEmpresarial : DataFrame :=
  ⟨["dip_id", "tipo", "descripcion", "detalle", "periodo"],
   [[("dip_id", some "1"), ("tipo", some "exp_empresarial"),
     ("descripcion", some ""), ("detalle", some "A"),
     ("periodo", some "2010")]]⟩

/-- Member with one `exp_docente` event whose `actividad` is `"Docente"`. -/
def dDocente : DataFrame :=
  ⟨["tipo", "actividad"],
   [[("tipo", some "exp_docente"), ("actividad", some "Docente")]]⟩

/-- Member with one `exp_politica` event, in a dataframe whose schema lacks
the `periodo` column entirely (structural-error scenario of §7). -/
def dNoPeriodo : DataFrame :=
  ⟨["dip_id", "tipo_actividad_std", "descripcion", "detalle"],
   [[("dip_id", some "7"), ("tipo_actividad_std", some "exp_politica"),
     ("descripcion", some "Senador"), ("detalle", some "PRI")]]⟩

/-- Member with one `exp_leg_previa` event (non-empty partition). -/
def dLegPrevia : DataFrame :=
  ⟨["tipo", "descripcion", "detalle", "periodo"],
   [[("tipo", some "exp_leg_previa"), ("descripcion", some "Diputado local"),
     ("detalle", some "LVII"), ("periodo", some "2008")]]⟩

/-- Member A with two `escolaridad` events. -/
def dEscolaridadA : DataFrame :=
  ⟨["tipo_actividad_std", "descripcion", "detalle", "periodo"],
   [[("tipo_actividad_std", some "escolaridad"),
     ("descripcion", some "Licenciatura"), ("detalle", some "UNAM"),
     ("periodo", some "2000")],
    [("tipo_actividad_std", some "escolaridad"),
     ("descripcion", some "Maestria"), ("detalle", some "IPN"),
     ("periodo", some "2005")]]⟩

/-- Member B with no events at all. -/
def dSinEventos : DataFrame :=
  ⟨["tipo_actividad_std", "descripcion", "detalle", "periodo"], []⟩

/-- The flat records of members A (two `escolaridad` events) and B (none),
as stacked by `process_sheet3` before table assembly. -/
def profilesAB : List (List (String × Value)) :=
  [process_deputy_profile 1 dEscolaridadA, process_deputy_profile 2 dSinEventos]

/-! ## Helper lemmas -/

theorem lookup_mem {α β : Type} [BEq α] [LawfulBEq α] {l : List (α × β)}
    {a : α} {b : β} (h : List.lookup a l = some b) : (a, b) ∈ l := by
  induction l with
  | nil => simp [List.lookup] at h
  | cons p t ih =>
    obtain ⟨k, v⟩ := p
    cases hk : a == k with
    | true =>
      simp only [List.lookup, hk] at h
      obtain rfl : v = b := by simpa using h
      exact List.mem_cons.mpr (Or.inl (by rw [eq_of_beq hk]))
    | false =>
      simp only [List.lookup, hk] at h
      exact List.mem_cons_of_mem _ (ih h)

theorem sorted_lt_of_le_nodup {l : List Int} (h1 : List.Sorted (· ≤ ·) l)
    (h2 : l.Nodup) : List.Sorted (· < ·) l := by
  induction l with
  | nil => simp
  | cons a t ih =>
    rw [List.sorted_cons] at h1 ⊢
    rcases h1 with ⟨ha, ht⟩
    rcases List.nodup_cons.mp h2 with ⟨hna, hnt⟩
    exact ⟨fun b hb => lt_of_le_of_ne (ha b hb) (fun he => hna (he ▸ hb)),
           ih ht hnt⟩

theorem flag_mem_catSection (fn tk : String) (fs : List (String × String))
    (d : DataFrame) :
    (fn, Value.int
      (if 0 < (filterCol d "tipo_actividad_std" tk).rows.length then 1 else 0))
      ∈ catSection fn tk fs d := by
  simp [catSection]

/-! ## Claims -/

/-- C1: for every member partition and every category field template, the
per-record detail loop of `process_deputy_profile` emits exactly one numbered
detail-field group per event row of the partition, and the numeric suffixes
used are exactly `1..n`, contiguous and gapless, in source row order. -/
theorem claim1_detail_groups_contiguous (fields : List (String × String))
    (d : DataFrame) (c : String) :
    (detailGroups fields (filterCol d "tipo_actividad_std" c)).length =
      (filterCol d "tipo_actividad_std" c).rows.length ∧
    (detailGroups fields (filterCol d "tipo_actividad_std" c)).map Prod.fst =
      List.range' 1 (filterCol d "tipo_actividad_std" c).rows.length := by
  constructor
  · simp [detailGroups]
  · simp only [detailGroups, List.map_map]
    rw [List.range'_eq_map_range]
    simp [Nat.add_comm]

/-- C2: a single `exp_empresarial` record `{detalle: "A", descripcion: "",
periodo: "2010"}` produces `actividad_empresarial_1 = "A,,2010"`, the literal
comma-join with the double delimiter from the empty middle field. -/
theorem claim2_empresarial_concat :
    process_actividad_empresarial dEmpresarial =
      [("actividad_empresarial_1", Value.str "A,,2010")] := by decide

/-- C3: the `actividad_docente` flag equals 1 iff at least one record of the
member's `exp_docente` partition has its `actividad` field equal to
`"Docente"`; in particular a non-empty partition with no such record gives
flag 0. -/
theorem claim3_docente_flag_iff (d : DataFrame) (h : WF d) :
    (process_actividad_docente d).lookup "actividad_docente" =
      some (Value.int 1) ↔
    ∃ r ∈ (filterCol d "tipo" "exp_docente").rows,
      rowGet r "actividad" = some "Docente" := by
  have hl : (process_actividad_docente d).lookup "actividad_docente" =
      some (Value.int
        (if 0 < (filterCol d "tipo" "exp_docente").rows.length ∧
            (if 0 < (filterCol d "tipo" "exp_docente").rows.length ∧
                "actividad" ∈ d.cols then
              (filterCol d "tipo" "exp_docente").rows.any
                (fun r => rowGet r "actividad" == some "Docente")
            else false) = true
          then 1 else 0)) := by
    simp [process_actividad_docente]
  rw [hl]
  simp only [Option.some.injEq, Value.int.injEq]
  constructor
  · intro h1
    by_cases hc : 0 < (filterCol d "tipo" "exp_docente").rows.length ∧
        (if 0 < (filterCol d "tipo" "exp_docente").rows.length ∧
            "actividad" ∈ d.cols then
          (filterCol d "tipo" "exp_docente").rows.any
            (fun r => rowGet r "actividad" == some "Docente")
        else false) = true
    · rcases hc with ⟨hlen, hdoc⟩
      by_cases hcols : 0 < (filterCol d "tipo" "exp_docente").rows.length ∧
          "actividad" ∈ d.cols
      · rw [if_pos hcols] at hdoc
        rcases List.any_eq_true.mp hdoc with ⟨r, hr, hb⟩
        exact ⟨r, hr, by simpa using hb⟩
      · rw [if_neg hcols] at hdoc
        exact absurd hdoc (by decide)
    · rw [if_neg hc] at h1
      exact absurd h1 (by norm_num)
  · rintro ⟨r, hr, hact⟩
    have hlen : 0 < (filterCol d "tipo" "exp_docente").rows.length :=
      List.length_pos.mpr (List.ne_nil_of_mem hr)
    have hmemrow : ("actividad", some "Docente") ∈ r :=
      lookup_mem (Option.join_eq_some.mp hact)
    have hrd : r ∈ d.rows := List.mem_of_mem_filter hr
    have hcol : "actividad" ∈ d.cols := h r hrd _ hmemrow
    have hany : (filterCol d "tipo" "exp_docente").rows.any
        (fun r => rowGet r "actividad" == some "Docente") = true :=
      List.any_eq_true.mpr ⟨r, hr, by simp [hact]⟩
    rw [if_pos ⟨hlen, by rw [if_pos ⟨hlen, hcol⟩]; exact hany⟩]

/-- C3 witness: a member with one `exp_docente` record whose `actividad` is
`"Docente"` gets flag 1. -/
theorem claim3_witness :
    (process_actividad_docente dDocente).lookup "actividad_docente" =
        some (Value.int 1) ↔
      ∃ r ∈ (filterCol dDocente "tipo" "exp_docente").rows,
        rowGet r "actividad" = some "Docente" :=
  claim3_docente_flag_iff dDocente
    (by exact (by decide :
      ∀ r ∈ dDocente.rows, ∀ kv ∈ r, kv.1 ∈ dDocente.cols))

/-- C4: canonicalization returns the mapped canonical key on an exact hit in
`TIPO_ACTIVIDAD_MAPPING` and the original label unchanged on a miss; the
standardization step never errors and preserves every row. -/
theorem claim4_canonicalize_total (l : String) (d : DataFrame) :
    ((∃ k, TIPO_ACTIVIDAD_MAPPING.lookup l = some k ∧ canonicalize l = k) ∨
     (TIPO_ACTIVIDAD_MAPPING.lookup l = none ∧ canonicalize l = l)) ∧
    (addTipoStd d).rows.length = d.rows.length := by
  refine ⟨?_, by simp [addTipoStd]⟩
  cases h : TIPO_ACTIVIDAD_MAPPING.lookup l with
  | some k => exact Or.inl ⟨k, rfl, by simp [canonicalize, h]⟩
  | none => exact Or.inr ⟨rfl, by simp [canonicalize, h]⟩

/-- C5: the natural-sort key splits a name into alternating non-digit/digit
runs with digit runs compared as integers, and sorting
`["x_2", "x_10", "x_1"]` with it yields `["x_1", "x_2", "x_10"]`. -/
theorem claim5_natural_sort :
    natural_sort_key "x_2" = [Sum.inl "x_", Sum.inr 2, Sum.inl ""] ∧
    natural_sort_key "x_10" = [Sum.inl "x_", Sum.inr 10, Sum.inl ""] ∧
    sortNaturally ["x_2", "x_10", "x_1"] = ["x_1", "x_2", "x_10"] := by decide

/-- C6 counterexample: `merge_dataframes` in `lxi_script.py` applies no row
sort, so with Sheet1 rows in `dip_id` order `[2, 1]` the final table keeps
that order and is not ascending by `dip_id`. -/
theorem claim6_counterexample :
    merge_dataframes_script [2, 1] [] [] = [2, 1] ∧
    ¬ List.Sorted (· < ·) (merge_dataframes_script [2, 1] [] []) := by
  refine ⟨rfl, fun h => ?_⟩
  rw [show merge_dataframes_script [2, 1] [] [] = [2, 1] from rfl] at h
  have := (List.sorted_cons.mp h).1 1 (by simp)
  omega

/-- C6 amended: in `lxi_dataprocessing_polars.py` (and `process_lxi_data.py`)
the merged table is sorted by `dip_id` in non-decreasing order for every
input, and strictly ascending whenever the merged ids are distinct;
`lxi_script.py` keeps Sheet1's row order instead. -/
theorem claim6_sorted_merge (ids1 ids2 ids3 : List Int) :
    List.Sorted (· ≤ ·) (merge_dataframes_sorted ids1 ids2 ids3) ∧
    (List.Nodup (merge_dataframes_sorted ids1 ids2 ids3) →
      List.Sorted (· < ·) (merge_dataframes_sorted ids1 ids2 ids3)) := by
  have hs : List.Sorted (· ≤ ·) (merge_dataframes_sorted ids1 ids2 ids3) :=
    List.sorted_insertionSort _ _
  exact ⟨hs, fun hn => sorted_lt_of_le_nodup hs hn⟩

/-- C6 witness: merging Sheet1 ids `[3, 1, 2]` in the sorting variant gives a
strictly ascending output. -/
theorem claim6_witness :
    List.Sorted (· < ·) (merge_dataframes_sorted [3, 1, 2] [] []) :=
  (claim6_sorted_merge [3, 1, 2] [] []).2 (by decide)

/-- C7 counterexample: with the `periodo` column absent from the schema
entirely, `process_deputy_profile` silently emits
`exp_politica_periodo_1 = ""` instead of raising a fatal configuration
error (`safe_get_value` has no error path: it returns its default). -/
theorem claim7_counterexample :
    ("exp_politica_periodo_1", Value.str "") ∈
      process_deputy_profile 7 dNoPeriodo := by decide

/-- C7 amended: when a field template references a column absent from the
input schema, `safe_get_value` returns the default empty string — the
condition is absorbed, never surfaced as an error. -/
theorem claim7_missing_column_default (d : DataFrame) (column : String)
    (idx : Nat) (h : column ∉ d.cols) : safe_get_value d column idx = "" := by
  simp [safe_get_value, h]

/-- C7 witness: `dNoPeriodo` has no `periodo` column and `safe_get_value`
yields `""` there. -/
theorem claim7_witness :
    "periodo" ∉ dNoPeriodo.cols ∧ safe_get_value dNoPeriodo "periodo" 0 = "" :=
  ⟨by decide, claim7_missing_column_default dNoPeriodo "periodo" 0 (by decide)⟩

/-- C8 counterexample: escolaridad is not the only flag-less category — the
`exp_leg_previa` unpivoter of `lxi_dataprocessing_polars.py`, on a non-empty
partition, emits only numbered detail fields and no presence flag. -/
theorem claim8_counterexample :
    0 < (filterCol dLegPrevia "tipo" "exp_leg_previa").rows.length ∧
    (process_experiencia_legislativa_previa dLegPrevia).map Prod.fst =
      ["exp_leg_previa_1", "exp_leg_previa_legislatura_1",
       "exp_leg_previa_yr_1"] ∧
    (process_experiencia_legislativa_previa dLegPrevia).lookup
      "exp_leg_previa" = none := by decide

/-- C8 amended: in `lxi_dataprocessing_polars.py` three categories —
escolaridad, `exp_leg_previa` and `exp_empresarial` — omit the presence flag
(their outputs carry only string detail values), while the other categories,
e.g. `exp_apf`, always emit their integer flag field. -/
theorem claim8_flag_pattern (d : DataFrame) :
    ((process_escolaridad d).all (fun kv => isStrVal kv.2) = true) ∧
    ((process_experiencia_legislativa_previa d).all
      (fun kv => isStrVal kv.2) = true) ∧
    ((process_actividad_empresarial d).all (fun kv => isStrVal kv.2) = true) ∧
    ((process_experiencia_apf d).lookup "experiencia_apf" =
      some (Value.int
        (if 0 < (filterCol d "tipo" "exp_apf").rows.length then 1 else 0))) := by
  refine ⟨?_, ?_, ?_, ?_⟩
  · rw [List.all_eq_true]
    intro kv hkv
    simp only [process_escolaridad, List.mem_flatMap, List.mem_range] at hkv
    obtain ⟨i, _, hm⟩ := hkv
    simp only [List.mem_cons, List.not_mem_nil, or_false] at hm
    rcases hm with rfl | rfl | rfl <;> rfl
  · rw [List.all_eq_true]
    intro kv hkv
    simp only [process_experiencia_legislativa_previa, List.mem_flatMap,
      List.mem_range] at hkv
    obtain ⟨i, _, hm⟩ := hkv
    simp only [List.mem_cons, List.not_mem_nil, or_false] at hm
    rcases hm with rfl | rfl | rfl <;> rfl
  · rw [List.all_eq_true]
    intro kv hkv
    simp only [process_actividad_empresarial, List.mem_map,
      List.mem_range] at hkv
    obtain ⟨i, _, rfl⟩ := hkv
    rfl
  · simp [process_experiencia_apf, List.lookup]

/-- C9: member A has two `escolaridad` records and member B has none; the
assembled table's column set contains `escolaridad_1` and `escolaridad_2`,
and member B's cell in `escolaridad_1` is null — not the empty string. -/
theorem claim9_backfill_null :
    "escolaridad_1" ∈ unionKeys profilesAB ∧
    "escolaridad_2" ∈ unionKeys profilesAB ∧
    tableCell (process_deputy_profile 2 dSinEventos) "escolaridad_1" = none ∧
    (none : Option Value) ≠ some (Value.str "") := by
  refine ⟨by decide, by decide, by decide, by simp⟩

/-- C10: for every member (including one with zero events in every
category), the profile returned by `process_deputy_profile` contains a
presence-flag entry for each of the thirteen defined categories, and every
such flag is exactly 0 or 1. -/
theorem claim10_flags_present (dipId : Int) (d : DataFrame) (name : String)
    (h : name ∈ flagNames) :
    ∃ v : Int, ((name, Value.int v) ∈ process_deputy_profile dipId d) ∧
      (v = 0 ∨ v = 1) := by
  simp only [flagNames, List.mem_cons, List.not_mem_nil, or_false] at h
  rcases h with rfl | rfl | rfl | rfl | rfl | rfl | rfl | rfl | rfl | rfl |
    rfl | rfl | rfl
  · exact ⟨_, List.mem_cons_of_mem _
      (List.mem_append_left _ (flag_mem_catSection _ _ _ d)),
      by split <;> simp⟩
  · exact ⟨_, List.mem_cons_of_mem _ (List.mem_append_right _
      (List.mem_append_left _ (flag_mem_catSection _ _ _ d))),
      by split <;> simp⟩
  · exact ⟨_, List.mem_cons_of_mem _ (List.mem_append_right _
      (List.mem_append_right _
      (List.mem_append_left _ (flag_mem_catSection _ _ _ d)))),
      by split <;> simp⟩
  · exact ⟨_, List.mem_cons_of_mem _ (List.mem_append_right _
      (List.mem_append_right _ (List.mem_append_right _
      (List.mem_append_left _ (flag_mem_catSection _ _ _ d))))),
      by split <;> simp⟩
  · exact ⟨_, List.mem_cons_of_mem _ (List.mem_append_right _
      (List.mem_append_right _ (List.mem_append_right _
      (List.mem_append_right _
      (List.mem_append_left _ (flag_mem_catSection _ _ _ d)))))),
      by split <;> simp⟩
  · exact ⟨_, List.mem_cons_of_mem _ (List.mem_append_right _
      (List.mem_append_right _ (List.mem_append_right _
      (List.mem_append_right _ (List.mem_append_right _
      (List.mem_append_left _ (flag_mem_catSection _ _ _ d))))))),
      by split <;> simp⟩
  · exact ⟨_, List.mem_cons_of_mem _ (List.mem_append_right _
      (List.mem_append_right _ (List.mem_append_right _
      (List.mem_append_right _ (List.mem_append_right _
      (List.mem_append_right _
      (List.mem_append_left _ (flag_mem_catSection _ _ _ d)))))))),
      by split <;> simp⟩
  · exact ⟨_, List.mem_cons_of_mem _ (List.mem_append_right _
      (List.mem_append_right _ (List.mem_append_right _
      (List.mem_append_right _ (List.mem_append_right _
      (List.mem_append_right _ (List.mem_append_right _
      (List.mem_append_left _ (flag_mem_catSection _ _ _ d))))))))),
      by split <;> simp⟩
  · exact ⟨_, List.mem_cons_of_mem _ (List.mem_append_right _
      (List.mem_append_right _ (List.mem_append_right _
      (List.mem_append_right _ (List.mem_append_right _
      (List.mem_append_right _ (List.mem_append_right _
      (List.mem_append_right _
      (List.mem_append_left _ (flag_mem_catSection _ _ _ d)))))))))),
      by split <;> simp⟩
  · exact ⟨_, List.mem_cons_of_mem _ (List.mem_append_right _
      (List.mem_append_right _ (List.mem_append_right _
      (List.mem_append_right _ (List.mem_append_right _
      (List.mem_append_right _ (List.mem_append_right _
      (List.mem_append_right _ (List.mem_append_right _
      (List.mem_append_left _ (flag_mem_catSection _ _ _ d))))))))))),
      by split <;> simp⟩
  · exact ⟨_, List.mem_cons_of_mem _ (List.mem_append_right _
      (List.mem_append_right _ (List.mem_append_right _
      (List.mem_append_right _ (List.mem_append_right _
      (List.mem_append_right _ (List.mem_append_right _
      (List.mem_append_right _ (List.mem_append_right _
      (List.mem_append_right _
      (List.mem_append_left _ (flag_mem_catSection _ _ _ d)))))))))))),
      by split <;> simp⟩
  · exact ⟨_, List.mem_cons_of_mem _ (List.mem_append_right _
      (List.mem_append_right _ (List.mem_append_right _
      (List.mem_append_right _ (List.mem_append_right _
      (List.mem_append_right _ (List.mem_append_right _
      (List.mem_append_right _ (List.mem_append_right _
      (List.mem_append_right _ (List.mem_append_right _
      (List.mem_append_left _ (flag_mem_catSection _ _ _ d))))))))))))),
      by split <;> simp⟩
  · exact ⟨_, List.mem_cons_of_mem _ (List.mem_append_right _
      (List.mem_append_right _ (List.mem_append_right _
      (List.mem_append_right _ (List.mem_append_right _
      (List.mem_append_right _ (List.mem_append_right _
      (List.mem_append_right _ (List.mem_append_right _
      (List.mem_append_right _ (List.mem_append_right _
      (List.mem_append_right _ (flag_mem_catSection _ _ _ d))))))))))))),
      by split <;> simp⟩

/-- C10 witness: the `exp_docente` flag is present with value 0 or 1 for a
concrete member. -/
theorem claim10_witness :
    ∃ v : Int, (("exp_docente", Value.int v) ∈
      process_deputy_profile 3 dNoPeriodo) ∧ (v = 0 ∨ v = 1) :=
  claim10_flags_present 3 dNoPeriodo "exp_docente" (by decide)
